import Mathlib

/-!
Verification development for the llminfo-cli repository.

Shallow embedding of the core components (error taxonomy, response
parsing strategies, file-backed model cache, generic HTTP provider,
provider registry, free-model selection) translated from the Python
sources under src/llminfo_cli/, together with theorems settling the
frozen claims about the natural-language specification.
-/

namespace LLMInfo

/-- Exact scaled-decimal number: the value mant / 10 ^ scale.  JSON
numeric literals and the plain decimal strings fed to Python's float()
are finite decimals, which this represents exactly; comparisons are
exact, by integer cross-multiplication. -/
structure Dec where
  mant : Int
  scale : Nat

/-- Value-level strict order on scaled decimals. -/
def Dec.blt (a b : Dec) : Bool :=
  a.mant * (10 : Int) ^ b.scale < b.mant * (10 : Int) ^ a.scale

/-- Whether a scaled decimal denotes an integer (pydantic accepts JSON
integers and integral floats for an int field). -/
def Dec.isInt (a : Dec) : Bool :=
  a.mant % (10 : Int) ^ a.scale = 0

/-- The denoted integer of an integral scaled decimal. -/
def Dec.toInt (a : Dec) : Int :=
  a.mant / (10 : Int) ^ a.scale

/-- JSON values as decoded by Python's json module from provider API
responses and cache files.  Numbers are scaled decimals (JSON numeric
literals are finite decimals); objects keep key order as association
lists. -/
inductive Json where
  | null
  | str (s : String)
  | num (v : Dec)
  | bool (b : Bool)
  | arr (xs : List Json)
  | obj (kvs : List (String × Json))

/-- Python exceptions raised by the library, translated from
src/llminfo_cli/errors.py plus the builtin exceptions the code actually
raises.  ValueError is what the code raises for every configuration
problem (unresolved API key in generic.py, unknown provider and unknown
parser type in providers/__init__.py); the ConfigurationError class
declared in errors.py is never raised anywhere in the source, and
main.py catches ValueError as its configuration-fault branch, so the
spec's ConfigurationFault is realized as valueError here.
keyError models Python KeyError (missing mandatory JSON field),
typeError models Python TypeError (indexing into a non-mapping),
attributeError models Python AttributeError (calling .get on a
non-mapping, or reading an undeclared pydantic field), and
validationError models pydantic's ValidationError. -/
inductive Fault where
  | valueError (msg : String)
  | authenticationError (provider : String)
  | rateLimitError (provider : String)
  | apiError (statusCode : Nat) (provider : String)
  | networkError (cause : String)
  | keyError (key : String)
  | typeError
  | attributeError
  | validationError
  | indexError

/-- Model record as declared by the pydantic class ModelInfo in
src/llminfo_cli/schemas.py: exactly the four fields id, name,
context_length and pricing.  Note that schemas.py declares no is_free
field (see modelInfoFields below). -/
structure ModelInfo where
  id : String
  name : String
  context_length : Option Int := none
  pricing : Option (List (String × Json)) := none

/-- The field names declared on the pydantic class ModelInfo in
src/llminfo_cli/schemas.py (id, name, context_length, pricing). -/
def modelInfoFields : List String := ["id", "name", "context_length", "pricing"]

/-- Pydantic construction semantics for ModelInfo with the default
model_config (extra fields ignored): keyword arguments whose name is
not a declared field are silently dropped. -/
def pydanticFilterKwargs (kwargs : List (String × Json)) : List (String × Json) :=
  kwargs.filter (fun kv => kv.1 ∈ modelInfoFields)

/-- Attribute access on a constructed pydantic instance: an attribute
that is not among the stored fields raises AttributeError. -/
def pydanticGetattr (inst : List (String × Json)) (attr : String) : Except Fault Json :=
  match inst.lookup attr with
  | some v => .ok v
  | none => .error .attributeError

/-- Python dict lookup on an association list (first binding wins,
matching dict semantics since keys are unique in decoded JSON). -/
def lookupKey {α : Type} : List (String × α) → String → Option α
  | [], _ => none
  | (k, v) :: rest, key => if k = key then some v else lookupKey rest key

/-- Python dict.get with a default value. -/
def dictGet (kvs : List (String × Json)) (key : String) (dflt : Json) : Json :=
  (lookupKey kvs key).getD dflt

/-- Python mandatory dict indexing m[key]: raises KeyError when the key
is missing. -/
def dictGetReq (kvs : List (String × Json)) (key : String) : Except Fault Json :=
  match lookupKey kvs key with
  | some v => .ok v
  | none => .error (.keyError key)

/-- Sequencing of a Python list comprehension whose body may raise: the
entries are evaluated left to right and the first exception
propagates. -/
def mapExcept {α β : Type} (f : α → Except Fault β) : List α → Except Fault (List β)
  | [] => .ok []
  | x :: xs => do
      let y ← f x
      let ys ← mapExcept f xs
      .ok (y :: ys)

/-- Pydantic validation of a str field: only a string value is
accepted. -/
def asStr : Json → Except Fault String
  | .str s => .ok s
  | _ => .error .validationError

/-- Pydantic validation of an optional int field: null or an integral
number is accepted (pydantic coerces integral floats). -/
def asOptInt : Json → Except Fault (Option Int)
  | .null => .ok none
  | .num v => if v.isInt then .ok (some v.toInt) else .error .validationError
  | _ => .error .validationError

/-- Pydantic validation of an optional dict field: null or an object is
accepted. -/
def asOptDict : Json → Except Fault (Option (List (String × Json)))
  | .null => .ok none
  | .obj kvs => .ok (some kvs)
  | _ => .error .validationError

/-- Parser strategy configuration for OpenAI-compatible providers,
translated from OpenAICompatibleParser.__init__ in
src/llminfo_cli/providers/parsers.py (model_path defaults to "data"). -/
structure OpenAICompatibleParser where
  model_path : String := "data"
  credit_path : Option String := none

/-- One list entry of the OpenAI-compatible models response, translated
from the comprehension body in OpenAICompatibleParser.parse_models:
id and name both come from m.get("id", ""), context_length and pricing
from m.get with default None, then pydantic validates the ModelInfo. -/
def oaiEntry (m : List (String × Json)) : Except Fault ModelInfo := do
  let idv ← asStr (dictGet m "id" (.str ""))
  let cl ← asOptInt (dictGet m "context_length" .null)
  let pr ← asOptDict (dictGet m "pricing" .null)
  .ok { id := idv, name := idv, context_length := cl, pricing := pr }

/-- Entries that are not JSON objects make m.get raise AttributeError. -/
def oaiEntryJson : Json → Except Fault ModelInfo
  | .obj kvs => oaiEntry kvs
  | _ => .error .attributeError

/-- OpenAICompatibleParser.parse_models from
src/llminfo_cli/providers/parsers.py: read the configured top-level key
with default [], and if the value is not a list return [] without
raising; otherwise build a ModelInfo per entry. -/
def oaiParseModels (p : OpenAICompatibleParser) (response : List (String × Json)) :
    Except Fault (List ModelInfo) :=
  match dictGet response p.model_path (.arr []) with
  | .arr entries => mapExcept oaiEntryJson entries
  | _ => .ok []

/-- One list entry of the OpenRouter models response, translated from
the comprehension body in OpenRouterParser.parse_models: m["id"] and
m["name"] are mandatory (KeyError when missing, keyword arguments are
evaluated before pydantic validation), context_length and pricing use
m.get with default None. -/
def orEntry (m : List (String × Json)) : Except Fault ModelInfo := do
  let idJ ← dictGetReq m "id"
  let nameJ ← dictGetReq m "name"
  let idv ← asStr idJ
  let namev ← asStr nameJ
  let cl ← asOptInt (dictGet m "context_length" .null)
  let pr ← asOptDict (dictGet m "pricing" .null)
  .ok { id := idv, name := namev, context_length := cl, pricing := pr }

/-- Indexing m["id"] into a non-mapping entry raises TypeError. -/
def orEntryJson : Json → Except Fault ModelInfo
  | .obj kvs => orEntry kvs
  | _ => .error .typeError

/-- OpenRouterParser.parse_models from
src/llminfo_cli/providers/parsers.py: read "data" with default [] and
run the strict comprehension over it.  A non-list value is iterated by
Python: iterating a string yields characters and iterating a dict
yields keys, and indexing those with m["id"] raises TypeError (the
degenerate empty string and empty dict iterate to zero entries and so
yield []); null, numbers and booleans are not iterable and raise
TypeError immediately. -/
def orParseModels (response : List (String × Json)) : Except Fault (List ModelInfo) :=
  match dictGet response "data" (.arr []) with
  | .arr entries => mapExcept orEntryJson entries
  | .str s => if s.isEmpty then .ok [] else .error .typeError
  | .obj kvs => if kvs.isEmpty then .ok [] else .error .typeError
  | _ => .error .typeError

/-- Python truthiness of a JSON-representable value. -/
def jsonTruthy : Json → Bool
  | .null => false
  | .str s => !s.isEmpty
  | .num v => v.mant != 0
  | .bool b => b
  | .arr xs => !xs.isEmpty
  | .obj kvs => !kvs.isEmpty

/-- Attribute access on a validated ModelInfo instance: pydantic stores
exactly the fields declared in src/llminfo_cli/schemas.py, so reading
any other attribute — in particular the is_free that
src/llminfo_cli/models.py expects — raises AttributeError. -/
def modelInfoGetattr (m : ModelInfo) (attr : String) : Except Fault Json :=
  if attr = "id" then .ok (.str m.id)
  else if attr = "name" then .ok (.str m.name)
  else if attr = "context_length" then
    .ok (match m.context_length with
         | none => .null
         | some n => .num ⟨n, 0⟩)
  else if attr = "pricing" then
    .ok (match m.pricing with
         | none => .null
         | some kvs => .obj kvs)
  else .error .attributeError

/-- The comprehension [m for m in models if m.is_free] at
src/llminfo_cli/models.py line 17, over the ModelInfo records the
program actually constructs: the condition reads the attribute is_free
through modelInfoGetattr, so the first record of any nonempty input
raises AttributeError; only the empty input completes. -/
def filterIsFree : List ModelInfo → Except Fault (List ModelInfo)
  | [] => .ok []
  | m :: ms => do
      let v ← modelInfoGetattr m "is_free"
      let rest ← filterIsFree ms
      .ok (if jsonTruthy v then m :: rest else rest)

/-- Digit-string value: all characters must be decimal digits and the
string nonempty. -/
def digitsToNat (cs : List Char) : Option Nat :=
  if cs.isEmpty then none
  else if cs.all Char.isDigit then
    some (cs.foldl (fun acc c => acc * 10 + (c.toNat - 48)) 0)
  else none

/-- Split a character list at the first dot, when there is one. -/
def breakDot : List Char → List Char × Option (List Char)
  | [] => ([], none)
  | c :: cs =>
      if c = '.' then ([], some cs)
      else
        let r := breakDot cs
        (c :: r.1, r.2)

/-- Python float() applied to a plain decimal literal string (optional
sign, digits, optional fractional part).  The pricing values in this
system are decimal strings such as "0.01"; other accepted Python float
spellings (exponents, "inf", surrounding whitespace) do not occur here
and are rejected by this model. -/
def parseDecimal (s : String) : Option Dec :=
  let core : List Char → Option Dec := fun cs =>
    match breakDot cs with
    | (w, none) => (digitsToNat w).map (fun n => ⟨(n : Int), 0⟩)
    | (w, some f) =>
        match digitsToNat w, digitsToNat f with
        | some n, some fr =>
            some ⟨(n : Int) * (10 : Int) ^ f.length + (fr : Int), f.length⟩
        | _, _ => none
  match s.toList with
  | '-' :: rest => (core rest).map (fun d => ⟨-d.mant, d.scale⟩)
  | cs => core cs

/-- Python float() on a JSON value: numbers pass through, strings are
parsed (ValueError when unparsable), booleans coerce to 0 or 1, other
values raise TypeError. -/
def pyFloat : Json → Except Fault Dec
  | .num v => .ok v
  | .str s =>
      match parseDecimal s with
      | some v => .ok v
      | none => .error (.valueError ("could not convert string to float: " ++ s))
  | .bool b => .ok ⟨if b then 1 else 0, 0⟩
  | _ => .error .typeError

/-- The sort key from select_best_free_model in src/llminfo_cli/models.py:
float(m.pricing.get("prompt", "999999")) when pricing is present, the
number 999999 otherwise (pricing is a declared field, so this attribute
read succeeds). -/
def modelSortKey (m : ModelInfo) : Except Fault Dec :=
  match m.pricing with
  | none => .ok ⟨999999, 0⟩
  | some pr => pyFloat (dictGet pr "prompt" (.str "999999"))

/-- select_best_free_model from src/llminfo_cli/models.py over the
program's actual ModelInfo records: the free filter reads m.is_free,
which schemas.py does not declare, so any nonempty input raises
AttributeError there (see modelInfoGetattr); an empty input yields the
empty free list and ValueError "No free models available".  The rest of
the function — the context_length filter with fallback to all free
models and the stable sort by prompt price (the first element attaining
the minimal key, as a left fold replacing the best only on a strictly
smaller key; list.sort evaluates the key on every element) — is
translated in full but is unreachable on these records. -/
def select_best_free_model (models : List ModelInfo) : Except Fault ModelInfo := do
  let free_models ← filterIsFree models
  if free_models.isEmpty then
    .error (.valueError "No free models available")
  else
    let byContext := free_models.filter (fun m => m.context_length.getD 0 > 32000)
    let candidates := if byContext.isEmpty then free_models else byContext
    let keyed ← mapExcept (fun m => (modelSortKey m).map (fun v => (v, m))) candidates
    match keyed with
    | [] => .error .indexError
    | k :: ks => .ok (ks.foldl (fun best x => if x.1.blt best.1 then x else best) k).2

/-- Content of one cache file as written by CacheManager.set in
src/llminfo_cli/cache.py: the cached_at timestamp (wall-clock seconds;
datetime.isoformat round-trips losslessly), the provider name, and the
model_dump records. -/
structure CacheEntry where
  cached_at : Nat
  provider : String
  models : List Json

/-- The cache directory: one parsed JSON file per provider name.  The
association list is keyed by provider name, first binding wins. -/
abbrev CacheState := List (String × CacheEntry)

/-- ModelInfo.model_dump() as serialized into a cache file: all four
declared fields, optional ones as null. -/
def modelInfoDump (m : ModelInfo) : Json :=
  .obj [("id", .str m.id), ("name", .str m.name),
        ("context_length", match m.context_length with
                           | none => .null
                           | some n => .num ⟨n, 0⟩),
        ("pricing", match m.pricing with
                    | none => .null
                    | some kvs => .obj kvs)]

/-- ModelInfo(**m) on a stored cache record: pydantic validation of the
four declared fields (missing or null required string fields raise
ValidationError); unpacking a non-mapping raises TypeError. -/
def modelInfoFromJson : Json → Except Fault ModelInfo
  | .obj kvs => do
      let idv ← asStr (dictGet kvs "id" .null)
      let namev ← asStr (dictGet kvs "name" .null)
      let cl ← asOptInt (dictGet kvs "context_length" .null)
      let pr ← asOptDict (dictGet kvs "pricing" .null)
      .ok { id := idv, name := namev, context_length := cl, pricing := pr }
  | _ => .error .typeError

/-- CacheManager.get from src/llminfo_cli/cache.py as a state
transformer (the operation only reads the file, so the returned state
is the input state): absent file yields None, a file whose cached_at is
more than ttl_hours hours before now yields None without touching the
file, otherwise the stored records are revalidated into ModelInfo
(a deserialization failure propagates as a fatal error). -/
def cacheGet (st : CacheState) (now : Nat) (ttl_hours : Nat) (providerName : String) :
    Except Fault (Option (List ModelInfo)) × CacheState :=
  match lookupKey st providerName with
  | none => (.ok none, st)
  | some entry =>
      if (now : Int) - (entry.cached_at : Int) > (ttl_hours : Int) * 3600 then
        (.ok none, st)
      else
        ((mapExcept modelInfoFromJson entry.models).map some, st)

/-- CacheManager.set from src/llminfo_cli/cache.py: overwrite the
provider's cache file with cached_at = now and the dumped models. -/
def cacheSet (st : CacheState) (now : Nat) (providerName : String)
    (models : List ModelInfo) : CacheState :=
  (providerName, ⟨now, providerName, models.map modelInfoDump⟩)
    :: st.filter (fun kv => kv.1 ≠ providerName)

/-- CacheManager.invalidate from src/llminfo_cli/cache.py: delete the
provider's cache file when present (no error when absent). -/
def cacheInvalidate (st : CacheState) (providerName : String) : CacheState :=
  st.filter (fun kv => kv.1 ≠ providerName)

/-- Python truthiness of an optional string: None and the empty string
are falsy. -/
def truthy : Option String → Bool
  | none => false
  | some s => !s.isEmpty

/-- API key resolution in GenericProvider.__init__
(src/llminfo_cli/providers/generic.py): the Python expression
api_key or os.environ.get(api_key_env), where a falsy explicit key
falls through to the environment value. -/
def resolveApiKey (explicit envVal : Option String) : Option String :=
  if truthy explicit then explicit else envVal

/-- Outcome of one outbound HTTP GET: a response with a status code and
decoded JSON body (the parsers receive it as a dict), or a
transport-level failure (DNS, connection refused, timeout) carrying the
underlying httpx.RequestError. -/
inductive HttpResult where
  | response (statusCode : Nat) (body : List (String × Json))
  | transportError (cause : String)

/-- GenericProvider configuration after __init__
(src/llminfo_cli/providers/generic.py): api_key is the already-resolved
key (resolveApiKey of the explicit key and the environment value). -/
structure ProviderCtx where
  provider_name : String
  base_url : String
  api_key_env : String
  models_endpoint : String
  credits_endpoint : Option String := none
  api_key : Option String := none
  cache_ttl_hours : Nat := 1

/-- The except-clause mapping shared by GenericProvider.get_models and
GenericProvider.get_credits for a non-2xx response raised by
raise_for_status: 401 becomes AuthenticationError carrying the provider
name, 429 becomes RateLimitError carrying the provider name, and every
other status becomes APIError carrying the status code and the provider
name. -/
def mapStatusFault (statusCode : Nat) (providerName : String) : Fault :=
  if statusCode = 401 then .authenticationError providerName
  else if statusCode = 429 then .rateLimitError providerName
  else .apiError statusCode providerName

/-- httpx Response.is_success, the condition under which
raise_for_status does not raise. -/
def isSuccessStatus (statusCode : Nat) : Bool :=
  decide (200 ≤ statusCode) && decide (statusCode < 300)

/-- GenericProvider.get_models from src/llminfo_cli/providers/generic.py
as a state transformer over the cache directory: raise ValueError when
the resolved API key is falsy; on use_cache consult the cache first and
return a hit without any network activity; otherwise evaluate the HTTP
outcome, mapping transport failures to NetworkError wrapping the cause
and non-2xx statuses through mapStatusFault, and on success parse the
body with the configured strategy (a parser exception propagates) and
write the result to the cache. -/
def get_models (p : ProviderCtx)
    (parse : List (String × Json) → Except Fault (List ModelInfo))
    (use_cache : Bool) (st : CacheState) (now : Nat) (http : HttpResult) :
    Except Fault (List ModelInfo) × CacheState :=
  if !truthy p.api_key then
    (.error (.valueError (p.api_key_env ++ " environment variable not set")), st)
  else
    let fetch : Except Fault (List ModelInfo) × CacheState :=
      match http with
      | .transportError cause =>
          (.error (.networkError ("Network error occurred for provider "
              ++ p.provider_name ++ ": " ++ cause)), st)
      | .response statusCode body =>
          if isSuccessStatus statusCode then
            match parse body with
            | .error f => (.error f, st)
            | .ok models => (.ok models, cacheSet st now p.provider_name models)
          else
            (.error (mapStatusFault statusCode p.provider_name), st)
    if use_cache then
      match (cacheGet st now p.cache_ttl_hours p.provider_name).1 with
      | .ok (some ms) => (.ok ms, st)
      | .ok none => fetch
      | .error f => (.error f, st)
    else
      fetch

/-- GenericProvider.get_credits from
src/llminfo_cli/providers/generic.py: raise ValueError when the
resolved API key is falsy; return None when no (truthy) credits
endpoint is configured; otherwise perform the uncached GET with the
same status and transport fault mapping as get_models and hand the body
to the configured credit-parsing strategy. -/
def get_credits {Credit : Type} (p : ProviderCtx)
    (parseCredits : List (String × Json) → Except Fault (Option Credit))
    (http : HttpResult) : Except Fault (Option Credit) :=
  if !truthy p.api_key then
    .error (.valueError (p.api_key_env ++ " environment variable not set"))
  else if !truthy p.credits_endpoint then
    .ok none
  else
    match http with
    | .transportError cause =>
        .error (.networkError ("Network error occurred for provider "
            ++ p.provider_name ++ ": " ++ cause))
    | .response statusCode body =>
        if isSuccessStatus statusCode then
          parseCredits body
        else
          .error (mapStatusFault statusCode p.provider_name)

/-- One provider's declarative configuration as read from the YAML
catalog (src/llminfo_cli/providers/__init__.py): the keys accessed by
_create_provider_from_config, with parser and credits_endpoint read via
dict.get. -/
structure PConfig where
  name : String
  base_url : String
  api_key_env : String
  models_endpoint : String
  credits_endpoint : Option String := none
  parser : Option String := none

/-- The parsing strategy selected for a provider. -/
inductive ParserKind where
  | openai_compatible
  | openrouter

/-- The merged provider catalog lookup: providers.update(user_config)
in _load_provider_config means a user entry wins over a built-in entry
with the same name. -/
def lookupMerged (builtin user : List (String × PConfig)) (name : String) :
    Option PConfig :=
  match lookupKey user name with
  | some c => some c
  | none => lookupKey builtin name

/-- The function _create_provider_from_config from
src/llminfo_cli/providers/__init__.py: select the parsing strategy from
config.get("parser", "openai_compatible"), raising ValueError on an
unrecognized value, then construct the GenericProvider (the API key is
resolved from the override and the environment value of the configured
variable). -/
def createProviderFromConfig (config : PConfig) (apiKey : Option String)
    (envVal : Option String) : Except Fault (ProviderCtx × ParserKind) :=
  let parserType := config.parser.getD "openai_compatible"
  let kind : Except Fault ParserKind :=
    if parserType = "openai_compatible" then .ok .openai_compatible
    else if parserType = "openrouter" then .ok .openrouter
    else .error (.valueError ("Unknown parser type: " ++ parserType))
  kind.map (fun k =>
    ({ provider_name := config.name
       base_url := config.base_url
       api_key_env := config.api_key_env
       models_endpoint := config.models_endpoint
       credits_endpoint := config.credits_endpoint
       api_key := resolveApiKey apiKey envVal }, k))

/-- The function get_provider from src/llminfo_cli/providers/__init__.py:
look the name up in the merged catalog, raising
ValueError "Unknown provider: name" when absent, and otherwise build
the provider from its configuration. -/
def get_provider (builtin user : List (String × PConfig)) (name : String)
    (apiKey : Option String) (envVal : Option String) :
    Except Fault (ProviderCtx × ParserKind) :=
  match lookupMerged builtin user name with
  | none => .error (.valueError ("Unknown provider: " ++ name))
  | some config => createProviderFromConfig config apiKey envVal

/-! Helper lemmas shared by the claim theorems. -/

theorem except_ok_bind {α β : Type} (a : α) (f : α → Except Fault β) :
    (Except.ok a : Except Fault α) >>= f = f a := rfl

theorem except_error_bind {α β : Type} (e : Fault) (f : α → Except Fault β) :
    (Except.error e : Except Fault α) >>= f = .error e := rfl

theorem except_ok_map {α β : Type} (a : α) (f : α → β) :
    (Except.ok a : Except Fault α).map f = .ok (f a) := rfl

theorem except_error_map {α β : Type} (e : Fault) (f : α → β) :
    (Except.error e : Except Fault α).map f = .error e := rfl

theorem modelInfoFromJson_dump (m : ModelInfo) :
    modelInfoFromJson (modelInfoDump m) = .ok m := by
  obtain ⟨idv, namev, cl, pr⟩ := m
  cases cl <;> cases pr <;>
    simp [modelInfoDump, modelInfoFromJson, dictGet, lookupKey, asStr, asOptInt, asOptDict,
      except_ok_bind, Dec.isInt, Dec.toInt]

theorem mapExcept_dump (ms : List ModelInfo) :
    mapExcept modelInfoFromJson (ms.map modelInfoDump) = .ok ms := by
  induction ms with
  | nil => rfl
  | cons m t ih =>
      simp [mapExcept, modelInfoFromJson_dump, ih, except_ok_bind]

/-! Claim theorems. -/

/-- C8: the specification states that every ModelInfo record has an
is_free boolean field (derived from the ":free" suffix convention,
default false).  The pydantic class in src/llminfo_cli/schemas.py does
not declare such a field, so constructing ModelInfo with the is_free
keyword (as tests/test_models.py and providers/openrouter.py do) drops
the value, and reading m.is_free (as src/llminfo_cli/models.py does)
raises AttributeError. -/
theorem modelInfo_is_free_not_declared :
    ("is_free" ∉ modelInfoFields)
    ∧ pydanticFilterKwargs
        [("id", Json.str "model1"), ("name", Json.str "Model 1"), ("is_free", Json.bool true)]
      = [("id", Json.str "model1"), ("name", Json.str "Model 1")]
    ∧ pydanticGetattr
        (pydanticFilterKwargs
          [("id", Json.str "model1"), ("name", Json.str "Model 1"),
           ("is_free", Json.bool true)])
        "is_free" = .error .attributeError :=
  ⟨by decide, by rfl, by rfl⟩

/-- C9: the claim (and tests/test_models.py) expects select_best_free_model
to return m2 on the two free models with context lengths 32000 and
131072 and prompt prices "0.01" and "0.00".  The records the program
actually constructs are the pydantic ModelInfo of schemas.py, which
silently drops the is_free keyword (see the is_free theorem above), so
the free filter at src/llminfo_cli/models.py line 17 raises
AttributeError at the first record instead of returning m2. -/
theorem select_best_free_model_attribute_error :
    select_best_free_model
      [ { id := "m1", name := "m1", context_length := some 32000,
          pricing := some [("prompt", Json.str "0.01")] },
        { id := "m2", name := "m2", context_length := some 131072,
          pricing := some [("prompt", Json.str "0.00")] } ]
    = .error .attributeError := by
  rfl

/-- C2: cache round-trip.  Writing a model list for a provider and
reading it back while no more than the configured TTL has elapsed
returns an equal list of ModelInfo. -/
theorem cache_set_get_roundtrip (st : CacheState) (p : String) (ms : List ModelInfo)
    (ttl_hours tset tget : Nat)
    (h : (tget : Int) - (tset : Int) ≤ (ttl_hours : Int) * 3600) :
    (cacheGet (cacheSet st tset p ms) tget ttl_hours p).1 = .ok (some ms) := by
  have hc : ¬ ((tget : Int) - (tset : Int) > (ttl_hours : Int) * 3600) := not_lt.mpr h
  simp [cacheGet, cacheSet, lookupKey, hc, mapExcept_dump, except_ok_map]

/-- Witness for C2 at a concrete provider, model list and time. -/
theorem cache_set_get_roundtrip_witness :
    ((0 : Int) - (0 : Int) ≤ (1 : Int) * 3600)
    ∧ (cacheGet (cacheSet [] 0 "openrouter" [{ id := "a", name := "b" }]) 0 1 "openrouter").1
      = .ok (some [{ id := "a", name := "b" }]) :=
  ⟨by decide, cache_set_get_roundtrip [] "openrouter" [{ id := "a", name := "b" }] 1 0 0
    (by decide)⟩

/-- C3: an existing cache entry whose cached_at is older than the
configured TTL makes get return absent, and the lookup leaves the file
in place (the returned cache state still holds the entry). -/
theorem cache_get_expired (st : CacheState) (p : String) (entry : CacheEntry)
    (now ttl_hours : Nat)
    (hfile : lookupKey st p = some entry)
    (hexp : (now : Int) - (entry.cached_at : Int) > (ttl_hours : Int) * 3600) :
    cacheGet st now ttl_hours p = (.ok none, st)
    ∧ lookupKey (cacheGet st now ttl_hours p).2 p = some entry := by
  refine ⟨?_, ?_⟩ <;> simp [cacheGet, hfile, hexp]

/-- Witness for C3: a one-hour TTL entry written at time 0 and read at
time 4000 seconds. -/
theorem cache_get_expired_witness :
    (lookupKey [("p", (⟨0, "p", []⟩ : CacheEntry))] "p" = some ⟨0, "p", []⟩)
    ∧ ((4000 : Int) - (0 : Int) > (1 : Int) * 3600)
    ∧ cacheGet [("p", ⟨0, "p", []⟩)] 4000 1 "p" = (.ok none, [("p", ⟨0, "p", []⟩)])
    ∧ lookupKey (cacheGet [("p", (⟨0, "p", []⟩ : CacheEntry))] 4000 1 "p").2 "p"
      = some ⟨0, "p", []⟩ := by
  have h := cache_get_expired [("p", ⟨0, "p", []⟩)] "p" ⟨0, "p", []⟩ 4000 1 (by rfl) (by decide)
  exact ⟨by rfl, by decide, h.1, h.2⟩

/-- C1: for both provider operations, a non-2xx HTTP response maps to
the status-determined fault — 401 to AuthenticationError carrying the
provider name, 429 to RateLimitError carrying the provider name, any
other non-2xx status to APIError carrying the status code and the
provider name — and a transport-level failure maps to NetworkError
wrapping the underlying cause. -/
theorem http_status_fault_mapping (p : ProviderCtx)
    (parse : List (String × Json) → Except Fault (List ModelInfo))
    (Credit : Type) (parseCredits : List (String × Json) → Except Fault (Option Credit))
    (st : CacheState) (now statusCode : Nat) (body : List (String × Json)) (cause : String)
    (hkey : truthy p.api_key = true)
    (hend : truthy p.credits_endpoint = true)
    (hstatus : isSuccessStatus statusCode = false) :
    (get_models p parse false st now (.response statusCode body)).1
      = .error (if statusCode = 401 then .authenticationError p.provider_name
                else if statusCode = 429 then .rateLimitError p.provider_name
                else .apiError statusCode p.provider_name)
    ∧ get_credits p parseCredits (.response statusCode body)
      = .error (if statusCode = 401 then .authenticationError p.provider_name
                else if statusCode = 429 then .rateLimitError p.provider_name
                else .apiError statusCode p.provider_name)
    ∧ (get_models p parse false st now (.transportError cause)).1
      = .error (.networkError ("Network error occurred for provider "
          ++ p.provider_name ++ ": " ++ cause))
    ∧ get_credits p parseCredits (.transportError cause)
      = .error (.networkError ("Network error occurred for provider "
          ++ p.provider_name ++ ": " ++ cause)) := by
  refine ⟨?_, ?_, ?_, ?_⟩ <;>
    simp [get_models, get_credits, hkey, hend, hstatus, mapStatusFault]

/-- Witness for C1 at a concrete provider and the statuses 401, 429 and
404 plus a transport failure. -/
theorem http_status_fault_mapping_witness :
    (truthy (some "sk-key") = true)
    ∧ (isSuccessStatus 404 = false)
    ∧ (get_models
        { provider_name := "openrouter", base_url := "https://openrouter.ai/api/v1",
          api_key_env := "OPENROUTER_API_KEY", models_endpoint := "/models",
          credits_endpoint := some "/credits", api_key := some "sk-key" }
        (fun _ => .ok []) false [] 0 (.response 404 [])).1
      = .error (.apiError 404 "openrouter")
    ∧ (get_models
        { provider_name := "openrouter", base_url := "https://openrouter.ai/api/v1",
          api_key_env := "OPENROUTER_API_KEY", models_endpoint := "/models",
          credits_endpoint := some "/credits", api_key := some "sk-key" }
        (fun _ => .ok []) false [] 0 (.response 401 [])).1
      = .error (.authenticationError "openrouter")
    ∧ (get_models
        { provider_name := "openrouter", base_url := "https://openrouter.ai/api/v1",
          api_key_env := "OPENROUTER_API_KEY", models_endpoint := "/models",
          credits_endpoint := some "/credits", api_key := some "sk-key" }
        (fun _ => .ok []) false [] 0 (.response 429 [])).1
      = .error (.rateLimitError "openrouter")
    ∧ get_credits
        { provider_name := "openrouter", base_url := "https://openrouter.ai/api/v1",
          api_key_env := "OPENROUTER_API_KEY", models_endpoint := "/models",
          credits_endpoint := some "/credits", api_key := some "sk-key" }
        (fun _ => (.ok none : Except Fault (Option Unit))) (.transportError "timeout")
      = .error (.networkError ("Network error occurred for provider openrouter: timeout")) := by
  refine ⟨by rfl, by rfl, ?_, ?_, ?_, ?_⟩
  · exact (http_status_fault_mapping _ _ Unit (fun _ => .ok none) [] 0 404 [] "x"
      (by rfl) (by rfl) (by rfl)).1
  · exact (http_status_fault_mapping _ _ Unit (fun _ => .ok none) [] 0 401 [] "x"
      (by rfl) (by rfl) (by rfl)).1
  · exact (http_status_fault_mapping _ _ Unit (fun _ => .ok none) [] 0 429 [] "x"
      (by rfl) (by rfl) (by rfl)).1
  · exact (http_status_fault_mapping _ (fun _ => .ok []) Unit (fun _ => .ok none) [] 0 404 []
      "timeout" (by rfl) (by rfl) (by rfl)).2.2.2

/-- C4: when the resolved API key is absent (explicit key absent and
the named environment variable unset), get_models with any use_cache
value and get_credits both fail with the configuration fault (the
ValueError naming the environment variable), independently of the
cache contents and of any would-be HTTP outcome, and the cache state is
left untouched — so the failure happens before any cache lookup or
network request. -/
theorem missing_api_key_fails_fast (p : ProviderCtx)
    (parse : List (String × Json) → Except Fault (List ModelInfo))
    (Credit : Type) (parseCredits : List (String × Json) → Except Fault (Option Credit))
    (use_cache : Bool) (st : CacheState) (now : Nat) (http : HttpResult)
    (hkey : p.api_key = resolveApiKey none none) :
    get_models p parse use_cache st now http
      = (.error (.valueError (p.api_key_env ++ " environment variable not set")), st)
    ∧ get_credits p parseCredits http
      = .error (.valueError (p.api_key_env ++ " environment variable not set")) := by
  have hfalse : truthy p.api_key = false := by rw [hkey]; rfl
  constructor <;> simp [get_models, get_credits, hfalse]

/-- Witness for C4 at a concrete provider with no key, a nonempty
cache and a would-be successful HTTP response. -/
theorem missing_api_key_fails_fast_witness :
    ((none : Option String) = resolveApiKey none none)
    ∧ get_models
        { provider_name := "groq", base_url := "https://api.groq.com/openai/v1",
          api_key_env := "GROQ_API_KEY", models_endpoint := "/models",
          api_key := none }
        (fun _ => .ok []) true [("groq", ⟨0, "groq", []⟩)] 0 (.response 200 [])
      = (.error (.valueError "GROQ_API_KEY environment variable not set"),
         [("groq", ⟨0, "groq", []⟩)])
    ∧ get_credits
        { provider_name := "groq", base_url := "https://api.groq.com/openai/v1",
          api_key_env := "GROQ_API_KEY", models_endpoint := "/models",
          api_key := none }
        (fun _ => (.ok none : Except Fault (Option Unit))) (.response 200 [])
      = .error (.valueError "GROQ_API_KEY environment variable not set") := by
  have h := missing_api_key_fails_fast
    { provider_name := "groq", base_url := "https://api.groq.com/openai/v1",
      api_key_env := "GROQ_API_KEY", models_endpoint := "/models", api_key := none }
    (fun _ => .ok []) Unit (fun _ => .ok none) true [("groq", ⟨0, "groq", []⟩)] 0
    (.response 200 []) (by rfl)
  exact ⟨by rfl, h.1, h.2⟩

/-- C5: get_provider fails with the configuration fault
(ValueError "Unknown provider: name") for every name absent from the
merged catalog (user entries overriding built-in ones), and fails with
ValueError "Unknown parser type: pt" when the found configuration names
an unrecognized parsing strategy. -/
theorem get_provider_config_faults :
    (∀ builtin user : List (String × PConfig), ∀ name : String,
       ∀ apiKey envVal : Option String,
       lookupMerged builtin user name = none →
       get_provider builtin user name apiKey envVal
         = .error (.valueError ("Unknown provider: " ++ name)))
    ∧ (∀ builtin user : List (String × PConfig), ∀ name : String,
       ∀ apiKey envVal : Option String, ∀ config : PConfig, ∀ pt : String,
       lookupMerged builtin user name = some config →
       config.parser = some pt →
       pt ≠ "openai_compatible" → pt ≠ "openrouter" →
       get_provider builtin user name apiKey envVal
         = .error (.valueError ("Unknown parser type: " ++ pt))) := by
  constructor
  · intro builtin user name apiKey envVal habs
    simp [get_provider, habs]
  · intro builtin user name apiKey envVal config pt hfound hpt h1 h2
    simp [get_provider, hfound, createProviderFromConfig, hpt, h1, h2, except_error_map]

/-- Witness for C5: an empty catalog rejects the name "nope", and a
catalog entry whose parser is "weird" is rejected. -/
theorem get_provider_config_faults_witness :
    (lookupMerged [] [] "nope" = none)
    ∧ get_provider [] [] "nope" none none
      = .error (.valueError "Unknown provider: nope")
    ∧ get_provider
        [("x", { name := "x", base_url := "https://x", api_key_env := "X_KEY",
                 models_endpoint := "/models", parser := some "weird" })] [] "x" none none
      = .error (.valueError "Unknown parser type: weird") := by
  refine ⟨by rfl, get_provider_config_faults.1 [] [] "nope" none none (by rfl), ?_⟩
  exact get_provider_config_faults.2
    [("x", { name := "x", base_url := "https://x", api_key_env := "X_KEY",
             models_endpoint := "/models", parser := some "weird" })] [] "x" none none
    { name := "x", base_url := "https://x", api_key_env := "X_KEY",
      models_endpoint := "/models", parser := some "weird" } "weird"
    (by rfl) (by rfl) (by decide) (by decide)

theorem oaiEntry_ok_iff (kvs : List (String × Json)) (r : ModelInfo) :
    oaiEntry kvs = .ok r
    ↔ ∃ idv cl pr, asStr (dictGet kvs "id" (.str "")) = .ok idv
        ∧ asOptInt (dictGet kvs "context_length" .null) = .ok cl
        ∧ asOptDict (dictGet kvs "pricing" .null) = .ok pr
        ∧ r = ⟨idv, idv, cl, pr⟩ := by
  unfold oaiEntry
  rcases h1 : asStr (dictGet kvs "id" (.str "")) with e1 | idv <;>
  rcases h2 : asOptInt (dictGet kvs "context_length" .null) with e2 | cl <;>
  rcases h3 : asOptDict (dictGet kvs "pricing" .null) with e3 | pr <;>
    simp [h1, h2, h3, except_ok_bind, except_error_bind, eq_comm]

/-- C6: the OpenAI-compatible parser reads the configured top-level key
(default "data"); a missing key or a non-list value there yields the
empty list without any fault; on a list it builds one record per entry,
whose id defaults to the empty string when absent, whose name always
equals the entry's id (never the entry's own name field), and whose
context_length and pricing pass through with None defaults. -/
theorem oai_parse_models_spec :
    (({} : OpenAICompatibleParser).model_path = "data")
    ∧ (∀ p : OpenAICompatibleParser, ∀ resp : List (String × Json),
        lookupKey resp p.model_path = none → oaiParseModels p resp = .ok [])
    ∧ (∀ p : OpenAICompatibleParser, ∀ resp : List (String × Json), ∀ v : Json,
        lookupKey resp p.model_path = some v → (∀ xs, v ≠ .arr xs) →
        oaiParseModels p resp = .ok [])
    ∧ (∀ p : OpenAICompatibleParser, ∀ resp : List (String × Json), ∀ entries : List Json,
        lookupKey resp p.model_path = some (.arr entries) →
        oaiParseModels p resp = mapExcept oaiEntryJson entries)
    ∧ (∀ kvs : List (String × Json), ∀ r : ModelInfo, oaiEntry kvs = .ok r →
        r.name = r.id
        ∧ (lookupKey kvs "id" = none → r.id = "")
        ∧ (∀ s, lookupKey kvs "id" = some (.str s) → r.id = s)
        ∧ (lookupKey kvs "context_length" = none → r.context_length = none)
        ∧ (∀ n : Int, lookupKey kvs "context_length" = some (.num ⟨n, 0⟩) →
             r.context_length = some n)
        ∧ (lookupKey kvs "pricing" = none → r.pricing = none)
        ∧ (∀ pr, lookupKey kvs "pricing" = some (.obj pr) → r.pricing = some pr)) := by
  refine ⟨rfl, ?_, ?_, ?_, ?_⟩
  · intro p resp habs
    simp [oaiParseModels, dictGet, habs, mapExcept]
  · intro p resp v hv hne
    cases v <;> first
      | exact absurd rfl (hne _)
      | simp [oaiParseModels, dictGet, hv]
  · intro p resp entries hv
    simp [oaiParseModels, dictGet, hv]
  · intro kvs r hok
    rcases (oaiEntry_ok_iff kvs r).mp hok with ⟨idv, cl, pr, hid, hcl, hpr, hr⟩
    subst hr
    refine ⟨rfl, ?_, ?_, ?_, ?_, ?_, ?_⟩
    · intro h
      simp [dictGet, h, asStr] at hid
      simp [hid]
    · intro s h
      simp [dictGet, h, asStr] at hid
      simp [hid]
    · intro h
      simp [dictGet, h, asOptInt] at hcl
      simp [hcl]
    · intro n h
      simp [dictGet, h, asOptInt, Dec.isInt, Dec.toInt] at hcl
      simp [hcl]
    · intro h
      simp [dictGet, h, asOptDict] at hpr
      simp [hpr]
    · intro prv h
      simp [dictGet, h, asOptDict] at hpr
      simp [hpr]

/-- Witness for C6: the payload with "data" bound to a string yields
the empty list, and a concrete entry carrying its own name field is
normalized with name equal to id. -/
theorem oai_parse_models_spec_witness :
    (lookupKey [("data", Json.str "not_a_list")] ({} : OpenAICompatibleParser).model_path
      = some (Json.str "not_a_list"))
    ∧ oaiParseModels {} [("data", Json.str "not_a_list")] = .ok []
    ∧ oaiEntry [("id", Json.str "m1"), ("name", Json.str "Fancy Name")]
      = .ok { id := "m1", name := "m1" }
    ∧ ({ id := "m1", name := "m1" } : ModelInfo).name
      = ({ id := "m1", name := "m1" } : ModelInfo).id := by
  have hok : oaiEntry [("id", Json.str "m1"), ("name", Json.str "Fancy Name")]
      = .ok { id := "m1", name := "m1" } := by rfl
  have hnm := (oai_parse_models_spec.2.2.2.2 _ _ hok).1
  exact ⟨by rfl,
    oai_parse_models_spec.2.2.1 {} [("data", Json.str "not_a_list")] (Json.str "not_a_list")
      (by rfl) (by intro xs h; cases h),
    hok, hnm⟩

/-- Whether an OpenRouter models entry is a JSON object containing both
mandatory keys id and name. -/
def entryComplete : Json → Bool
  | .obj kvs => (lookupKey kvs "id").isSome && (lookupKey kvs "name").isSome
  | _ => false

/-- Whether an OpenRouter models entry is a JSON object whose fields,
when present, carry the types pydantic accepts (so that the only
possible failure on it is a missing mandatory key). -/
def entryWellTyped : Json → Bool
  | .obj kvs =>
      (match lookupKey kvs "id" with
       | none => true
       | some (.str _) => true
       | some _ => false)
      && (match lookupKey kvs "name" with
          | none => true
          | some (.str _) => true
          | some _ => false)
      && (asOptInt (dictGet kvs "context_length" .null)).isOk
      && (asOptDict (dictGet kvs "pricing" .null)).isOk
  | _ => false

theorem orEntryJson_missing_key (m : Json)
    (hobj : ∃ kvs, m = .obj kvs)
    (hinc : entryComplete m = false) :
    ∃ k, orEntryJson m = .error (.keyError k) := by
  rcases hobj with ⟨kvs, rfl⟩
  rcases hid : lookupKey kvs "id" with _ | idJ
  · exact ⟨"id", by simp [orEntryJson, orEntry, dictGetReq, hid, except_error_bind]⟩
  · rcases hname : lookupKey kvs "name" with _ | nameJ
    · exact ⟨"name", by
        simp [orEntryJson, orEntry, dictGetReq, hid, hname, except_ok_bind, except_error_bind]⟩
    · simp [entryComplete, hid, hname] at hinc

theorem orEntryJson_complete_ok (m : Json)
    (hwt : entryWellTyped m = true)
    (hcomp : entryComplete m = true) :
    ∃ r, orEntryJson m = .ok r := by
  cases m with
  | obj kvs =>
      simp only [entryComplete, Bool.and_eq_true, Option.isSome_iff_exists] at hcomp
      rcases hcomp with ⟨⟨idJ, hid⟩, ⟨nameJ, hname⟩⟩
      simp only [entryWellTyped, Bool.and_eq_true, hid, hname] at hwt
      rcases hwt with ⟨⟨⟨hidT, hnameT⟩, hclT⟩, hprT⟩
      rcases idJ with _ | si | _ | _ | _ | _ <;> simp at hidT
      rcases nameJ with _ | sn | _ | _ | _ | _ <;> simp at hnameT
      rcases hcl : asOptInt (dictGet kvs "context_length" .null) with e | cl
      · rw [hcl] at hclT; cases hclT
      · rcases hpr : asOptDict (dictGet kvs "pricing" .null) with e | pr
        · rw [hpr] at hprT; cases hprT
        · exact ⟨⟨si, sn, cl, pr⟩, by
            simp [orEntryJson, orEntry, dictGetReq, hid, hname, asStr, hcl, hpr,
              except_ok_bind]⟩
  | null => simp [entryWellTyped] at hwt
  | str s => simp [entryWellTyped] at hwt
  | num v => simp [entryWellTyped] at hwt
  | bool b => simp [entryWellTyped] at hwt
  | arr xs => simp [entryWellTyped] at hwt

theorem mapExcept_or_missing (entries : List Json)
    (hwt : ∀ m ∈ entries, entryWellTyped m = true)
    (hmiss : ∃ m ∈ entries, entryComplete m = false) :
    ∃ k, mapExcept orEntryJson entries = .error (.keyError k) := by
  induction entries with
  | nil => simp at hmiss
  | cons m t ih =>
      have hwm := hwt m (by simp)
      have hobj : ∃ kvs, m = .obj kvs := by
        cases m <;> first
          | exact ⟨_, rfl⟩
          | simp [entryWellTyped] at hwm
      rcases hc : entryComplete m with _ | _
      · rcases orEntryJson_missing_key m hobj hc with ⟨k, hk⟩
        exact ⟨k, by simp [mapExcept, hk, except_error_bind]⟩
      · rcases orEntryJson_complete_ok m hwm hc with ⟨r, hr⟩
        have hmiss' : ∃ x ∈ t, entryComplete x = false := by
          rcases hmiss with ⟨x, hx, hxc⟩
          rcases List.mem_cons.mp hx with rfl | hxt
          · rw [hc] at hxc; cases hxc
          · exact ⟨x, hxt, hxc⟩
        rcases ih (fun x hx => hwt x (by simp [hx])) hmiss' with ⟨k, hk⟩
        exact ⟨k, by simp [mapExcept, hr, hk, except_ok_bind, except_error_bind]⟩

/-- C7: the OpenRouter parser is strict about the mandatory keys — on
any payload whose "data" value is a list of well-typed objects at least
one of which lacks the id key or the name key, parse_models raises a
missing-field KeyError rather than defaulting; in particular on the
payload with data = [ an object holding only id = "m1" ] it raises
KeyError "name". -/
theorem or_parse_models_strict :
    (∀ resp : List (String × Json), ∀ entries : List Json,
       lookupKey resp "data" = some (.arr entries) →
       (∀ m ∈ entries, entryWellTyped m = true) →
       (∃ m ∈ entries, entryComplete m = false) →
       ∃ k, orParseModels resp = .error (.keyError k))
    ∧ orParseModels [("data", Json.arr [Json.obj [("id", Json.str "m1")]])]
      = .error (.keyError "name") := by
  constructor
  · intro resp entries hdata hwt hmiss
    rcases mapExcept_or_missing entries hwt hmiss with ⟨k, hk⟩
    exact ⟨k, by simp [orParseModels, dictGet, hdata, hk]⟩
  · rfl

/-- Witness for C7 instantiating the universal part at the concrete
payload whose single data entry lacks the name key. -/
theorem or_parse_models_strict_witness :
    ∃ k, orParseModels [("data", Json.arr [Json.obj [("id", Json.str "m1")]])]
      = .error (.keyError k) :=
  or_parse_models_strict.1 [("data", Json.arr [Json.obj [("id", Json.str "m1")]])]
    [Json.obj [("id", Json.str "m1")]] (by rfl)
    (by intro m hm; simp at hm; subst hm; rfl)
    ⟨Json.obj [("id", Json.str "m1")], by simp, by rfl⟩

/-- C10: on the program's actual ModelInfo records the claimed
behavior survives only on the empty list, where the free filter
completes empty and ValueError "No free models available" is raised;
every nonempty input — whether or not its records were meant to be
free — raises AttributeError at the first is_free read of
src/llminfo_cli/models.py line 17, so the claimed ValueError for
nonempty free-less lists and the fallback to all free models are never
reached. -/
theorem select_best_free_model_empty_vs_nonempty :
    select_best_free_model [] = .error (.valueError "No free models available")
    ∧ (∀ m : ModelInfo, ∀ ms : List ModelInfo,
         select_best_free_model (m :: ms) = .error .attributeError) :=
  ⟨rfl, fun _ _ => rfl⟩

end LLMInfo
